import Mathlib

/-!
Verification of the aws-ssm-tunnels Terraform provider adapter layer
(src/internal/provider/remote_tunnel_data_source.go and
src/internal/provider/ssm_remote_tunnel.go) together with a model of the
tunnel-tracker design described in the specification.

External collaborators (the port allocator ports.FindOpenPort, the tracker
TunnelTracker.StartTunnel, the uuid generator, the Terraform plugin
framework) enter the embedding as explicit oracle parameters.  Each adapter
operation returns a trace recording the calls it made, the diagnostics it
added and the state it persisted, so that theorems can speak about which
requests reach the tracker and with which arguments.
-/

namespace SSMTunnels

/-- Arguments of one TunnelTracker.StartTunnel call as built by the adapter
(remote_tunnel_data_source.go lines 122-130 and 270-278, 319-327, 368-376;
ssm_remote_tunnel.go lines 101-109). -/
structure StartArgs where
  id : String
  target : String
  remoteHost : String
  remotePort : Int
  localPort : Int
  region : String
deriving DecidableEq

/-- Mirrors SSMRemoteTunnelDataSourceModel / SSMRemoteTunnelResourceModel
(remote_tunnel_data_source.go lines 27-35 and 175-183): the tfsdk model with
target, remote_host, remote_port, local_port, local_host, region and id.
types.Int64 values are modelled by Int (ValueInt64 of a null value is 0),
types.String by String. -/
structure TunnelModel where
  target : String
  remoteHost : String
  remotePort : Int
  localPort : Int
  localHost : String
  region : String
  id : String
deriving DecidableEq

/-- The two TunnelInfo fields the adapter reads after a successful
StartTunnel call (tunnelInfo.LocalPort, tunnelInfo.LocalHost). -/
structure TunnelInfo where
  localPort : Int
  localHost : String
deriving DecidableEq

/-- Trace of one adapter operation: the FindOpenPort calls with their
arguments, the StartTunnel calls with their arguments, the diagnostics
added (summary, detail) and the state persisted (none when the operation
returned on error before resp.State.Set). -/
structure AdapterResult where
  findCalls : List (Int × Int)
  startCalls : List StartArgs
  diags : List (String × String)
  state : Option TunnelModel
deriving DecidableEq

/-- Oracle type for ports.FindOpenPort (implementation not part of the
analysed sources; only its call sites are). -/
abbrev PortFinder := Int → Int → Except String Int

/-- Oracle type for TunnelTracker.StartTunnel as used by
remote_tunnel_data_source.go (returns a TunnelInfo or an error). -/
abbrev TunnelStarter := StartArgs → Except String TunnelInfo

/-- The StartTunnel argument tuple built by the adapter operations:
identity, target, remote host/port and region come from the model
unchanged; the local port is the resolved port. -/
def startArgsOf (data : TunnelModel) (port : Int) : StartArgs :=
  { id := data.id, target := data.target, remoteHost := data.remoteHost,
    remotePort := data.remotePort, localPort := port, region := data.region }

/-- Shared tail of the four start-tunnel adapter operations: invoke
StartTunnel with the resolved port; on error add the
"Failed to start remote tunnel" diagnostic and return without setting
state; on success persist local port and local host from the returned
TunnelInfo, with the id replaced by a fresh uuid when `newId` is supplied
(resource Create/Read/Update) and kept otherwise (data source Read).
`fc` records the FindOpenPort calls already made. -/
def tunnelOpAfterPort (data : TunnelModel) (start : TunnelStarter)
    (fc : List (Int × Int)) (port : Int) (newId : Option String) :
    AdapterResult :=
  match start (startArgsOf data port) with
  | Except.error e =>
      { findCalls := fc, startCalls := [startArgsOf data port],
        diags := [("Failed to start remote tunnel", "Error: " ++ e)],
        state := none }
  | Except.ok info =>
      { findCalls := fc, startCalls := [startArgsOf data port],
        diags := [],
        state := some { data with id := newId.getD data.id,
                                  localPort := info.localPort,
                                  localHost := info.localHost } }

/-- Shared body of RemoteTunnelDataSource.Read and
RemoteTunnelResource.Create/Read/Update (their Go bodies are textually
identical up to the id regeneration): resolve the local port — a zero
configured local port means FindOpenPort(16000, 26000), whose failure adds
the "Failed to find open port" diagnostic and returns early; a nonzero
one is used as is — then start the tunnel. -/
def resolveThenStart (data : TunnelModel) (find : PortFinder)
    (start : TunnelStarter) (newId : Option String) : AdapterResult :=
  if data.localPort = 0 then
    match find 16000 26000 with
    | Except.error e =>
        { findCalls := [(16000, 26000)], startCalls := [],
          diags := [("Failed to find open port", "Error: " ++ e)],
          state := none }
    | Except.ok p => tunnelOpAfterPort data start [(16000, 26000)] p newId
  else
    tunnelOpAfterPort data start [] data.localPort newId

/-- Embeds RemoteTunnelDataSource.Read (remote_tunnel_data_source.go lines
98-144), after a successful config decode (req.Config.Get is framework
code).  The persisted state keeps the configured id. -/
def RemoteTunnelDataSource.Read (data : TunnelModel) (find : PortFinder)
    (start : TunnelStarter) : AdapterResult :=
  resolveThenStart data find start none

/-- Embeds RemoteTunnelResource.Create (remote_tunnel_data_source.go lines
246-293), after a successful config decode.  `u` is the value of
uuid.New().String() persisted as the id. -/
def RemoteTunnelResource.Create (data : TunnelModel) (find : PortFinder)
    (start : TunnelStarter) (u : String) : AdapterResult :=
  resolveThenStart data find start (some u)

/-- Embeds RemoteTunnelResource.Read (remote_tunnel_data_source.go lines
295-342), after a successful state decode.  `u` is the value of
uuid.New().String() persisted as the id. -/
def RemoteTunnelResource.Read (data : TunnelModel) (find : PortFinder)
    (start : TunnelStarter) (u : String) : AdapterResult :=
  resolveThenStart data find start (some u)

/-- Embeds RemoteTunnelResource.Update (remote_tunnel_data_source.go lines
344-391), after a successful config decode.  `u` is the value of
uuid.New().String() persisted as the id. -/
def RemoteTunnelResource.Update (data : TunnelModel) (find : PortFinder)
    (start : TunnelStarter) (u : String) : AdapterResult :=
  resolveThenStart data find start (some u)

/-- Trace of RemoteTunnelResource.Delete: the calls it makes to the port
allocator and the tracker (StartTunnel and StopTunnel). -/
structure DeleteResult where
  findCalls : List (Int × Int)
  startCalls : List StartArgs
  stopCalls : List String
deriving DecidableEq

/-- Embeds RemoteTunnelResource.Delete (remote_tunnel_data_source.go lines
393-402): the body reads the prior state into the model (the `_data`
parameter) and returns; no allocator or tracker call of any kind is
made. -/
def RemoteTunnelResource.Delete (_data : TunnelModel) : DeleteResult :=
  { findCalls := [], startCalls := [], stopCalls := [] }

/-- Applies a list of StopTunnel calls to a registry snapshot (association
list keyed by identity), removing the named entries; used to state that an
operation issuing no StopTunnel call leaves any registry unchanged. -/
def applyStops {α : Type} (reg : List (String × α)) (stops : List String) :
    List (String × α) :=
  stops.foldl (fun r ident => r.filter (fun kv => kv.1 != ident)) reg

/-! ### Model of the Go standard-library functions used by ImportState -/

/-- Strips one leading sign as Go strconv.ParseInt does: returns whether the
number is negated and the remaining characters. -/
def splitSign : List Char → Bool × List Char
  | '-' :: rest => (true, rest)
  | '+' :: rest => (false, rest)
  | rest => (false, rest)

/-- A nonempty all-decimal-digit character list: the body accepted by Go
strconv.ParseInt in base 10. -/
def goNumericBody (cs : List Char) : Bool :=
  !cs.isEmpty && cs.all Char.isDigit

/-- Whether Go strconv.Atoi parses the string without a syntax error:
an optional single sign followed by a nonempty run of decimal digits. -/
def goNumeric (s : String) : Bool :=
  goNumericBody (splitSign s.toList).2

/-- Decimal value of a digit list. -/
def digitsToNat (cs : List Char) : Nat :=
  cs.foldl (fun acc c => acc * 10 + (c.toNat - 48)) 0

/-- Go strconv.Atoi = ParseInt(s, 10, 0) on a 64-bit platform, returning
(value, ok).  A syntax error yields (0, false); a value outside the int64
range yields the clamped bound and false (ErrRange); otherwise (v, true).
The call sites in ImportState discard the second component. -/
def goAtoi (s : String) : Int × Bool :=
  let sp := splitSign s.toList
  if goNumericBody sp.2 then
    let v : Int := if sp.1 then -(digitsToNat sp.2 : Int) else (digitsToNat sp.2 : Int)
    if v > 9223372036854775807 then (9223372036854775807, false)
    else if v < -9223372036854775808 then (-9223372036854775808, false)
    else (v, true)
  else (0, false)

/-- Splits a character list at every occurrence of `c`, as Go strings.Split
does for a single-character separator (the empty input yields one empty
field; a trailing separator yields a trailing empty field). -/
def splitChar (c : Char) : List Char → List (List Char)
  | [] => [[]]
  | x :: xs =>
    let r := splitChar c xs
    if x = c then [] :: r
    else
      match r with
      | [] => [[x]]
      | y :: ys => (x :: y) :: ys

/-- Go strings.Split(s, "|") as called by ImportState. -/
def goSplitPipe (s : String) : List String :=
  (splitChar '|' s.toList).map (fun cs => String.mk cs)

/-- Outcome of RemoteTunnelResource.ImportState: the diagnostics added and
the state persisted (none when the import id was rejected); ImportState
makes no allocator or tracker call at all. -/
structure ImportResult where
  diags : List (String × String)
  state : Option TunnelModel
deriving DecidableEq

/-- Embeds RemoteTunnelResource.ImportState (remote_tunnel_data_source.go
lines 404-434): split req.ID on "|"; reject with the invalid-format
diagnostic unless exactly six fields result (the six-element list pattern
is the len(parts) != 6 check); otherwise assign the fields parts[0]..[5]
in order to target, remote host, remote port, local port, local host and
region, converting the two ports with strconv.Atoi and discarding the
conversion errors, and persist them with a fresh uuid `u` as the id. -/
def RemoteTunnelResource.ImportState (reqID : String) (u : String) :
    ImportResult :=
  match goSplitPipe reqID with
  | [target, remoteHost, remotePort, localPort, localHost, region] =>
      { diags := [],
        state := some
          { id := u,
            target := target,
            remoteHost := remoteHost,
            remotePort := (goAtoi remotePort).1,
            localPort := (goAtoi localPort).1,
            localHost := localHost,
            region := region } }
  | _ =>
      { diags := [("Invalid import ID",
          "Import ID must be in the format `target|remote_host|remote_port|local_port|local_host|region`")],
        state := none }

/-! ### The ssm_remote_tunnel data source -/

/-- Mirrors SSMRemoteTunnelDataSourceModel of ssm_remote_tunnel.go lines
25-32 (this model has no local_host attribute). -/
structure SSMModel where
  target : String
  remoteHost : String
  remotePort : Int
  localPort : Int
  region : String
  id : String
deriving DecidableEq

/-- Which arm of the final select statement in
SSMRemoteTunnelDataSource.Read fires: the tunnel's ReadySignal channel or
the context's Done channel.  The choice is made by the runtime scheduler
and enters the embedding as a parameter. -/
inductive SelectBranch where
  | readySignal
  | ctxDone
deriving DecidableEq

/-- Trace of SSMRemoteTunnelDataSource.Read: the StartTunnel calls made,
the diagnostics added and whether resp.State.Set was reached. -/
structure SSMReadResult where
  startCalls : List StartArgs
  diags : List (String × String)
  stateSet : Bool
deriving DecidableEq

/-- The StartTunnel argument tuple built by ssm_remote_tunnel.go lines
101-109, straight from the configured model. -/
def ssmStartArgs (data : SSMModel) : StartArgs :=
  { id := data.id, target := data.target, remoteHost := data.remoteHost,
    remotePort := data.remotePort, localPort := data.localPort,
    region := data.region }

/-- Embeds SSMRemoteTunnelDataSource.Read (ssm_remote_tunnel.go lines
91-143), after a successful config decode.  `start` is the
TunnelTracker.StartTunnel oracle (this call site only observes the error),
`tunnels` the identities present in the tracker's Tunnels map, and `sel`
the select arm that fires.  An error from StartTunnel adds a diagnostic
but does not return: the lookup and the wait still run. -/
def SSMRemoteTunnelDataSource.Read (data : SSMModel)
    (start : StartArgs → Option String) (tunnels : List String)
    (sel : SelectBranch) : SSMReadResult :=
  let diags0 : List (String × String) :=
    match start (ssmStartArgs data) with
    | some e => [("Failed to start remote tunnel", "Error: " ++ e)]
    | none => []
  if data.id ∈ tunnels then
    match sel with
    | SelectBranch.readySignal =>
        { startCalls := [ssmStartArgs data], diags := diags0, stateSet := true }
    | SelectBranch.ctxDone =>
        { startCalls := [ssmStartArgs data],
          diags := diags0 ++ [("Context cancelled or timed out",
            "The operation was cancelled or timed out before the tunnel became ready.")],
          stateSet := false }
  else
    { startCalls := [ssmStartArgs data],
      diags := diags0 ++ [("Tunnel not found",
        "The requested tunnel does not exist in the tracker.")],
      stateSet := false }

/-! ### The Tunnel Tracker

The TunnelTracker implementation (StartTunnel, the registry, the readiness
channel) is not among the analysed sources; only its call sites are.  The
model below is built from the specification and settles the claims about
the tracker against that model. -/

namespace Tracker

/-- Modelled from the spec: the outcome of one Session Launcher invocation
(§4.2) — either ready with the bound local host/port or an error.  The
launcher implementation is missing from the sources, so outcomes enter the
model as an oracle indexed by launch count. -/
inductive LaunchRes where
  | ok (host : String) (port : Int)
  | err (msg : String)
deriving DecidableEq

/-- Modelled from the spec: the lifecycle state of a registry entry
(§3 TunnelInfo): `Starting → Ready` or `Starting → Failed`, with the local
host/port recorded on Ready and the error on Failed. -/
inductive RegState where
  | starting
  | ready (host : String) (port : Int)
  | failed (msg : String)
deriving DecidableEq

/-- Modelled from the spec: the control point of one concurrent
StartTunnel caller (§4.1): about to run the lookup-or-insert critical
section; performing the launch; blocked on the readiness notification; or
returned with a result. -/
inductive CallerPC where
  | atLookup
  | launching
  | waiting
  | done (r : LaunchRes)
deriving DecidableEq

/-- Modelled from the spec: the shared state for one tunnel identity —
the program counters of the concurrent callers, the registry entry for
this identity (the spec makes different identities fully independent,
§5), and the number of session launches performed so far. -/
structure Sys where
  pcs : List CallerPC
  reg : Option RegState
  launches : Nat
deriving DecidableEq

/-- Modelled from the spec: one atomic action of caller `i` in the
StartTunnel state machine of §4.1 (missing TunnelTracker.StartTunnel):
 * lookup with no entry: atomically insert a Starting entry and become the
   launching caller (step 5);
 * lookup finding Starting: block on the readiness notification (step 3);
 * lookup finding Ready: return its snapshot immediately (step 2);
 * lookup finding Failed: evict the entry, insert Starting and relaunch
   (step 4, policy retry);
 * launching: perform the launch — the outcome oracle, indexed by the
   number of launches so far, decides success or failure — record the
   terminal state and fire readiness (steps 7-8);
 * waiting with a terminal entry: observe the fired notification and
   return the entry's result (§5 ordering guarantee).
A caller index out of range, a waiter whose entry is still Starting and a
caller already done leave the state unchanged. -/
def step (o : Nat → LaunchRes) (s : Sys) (i : Nat) : Sys :=
  match s.pcs.get? i with
  | none => s
  | some CallerPC.atLookup =>
    match s.reg with
    | none =>
        { s with pcs := s.pcs.set i CallerPC.launching,
                 reg := some RegState.starting }
    | some RegState.starting =>
        { s with pcs := s.pcs.set i CallerPC.waiting }
    | some (RegState.ready host port) =>
        { s with pcs := s.pcs.set i (CallerPC.done (LaunchRes.ok host port)) }
    | some (RegState.failed _) =>
        { s with pcs := s.pcs.set i CallerPC.launching,
                 reg := some RegState.starting }
  | some CallerPC.launching =>
      { s with pcs := s.pcs.set i (CallerPC.done (o s.launches)),
               reg := some (match o s.launches with
                            | LaunchRes.ok host port => RegState.ready host port
                            | LaunchRes.err e => RegState.failed e),
               launches := s.launches + 1 }
  | some CallerPC.waiting =>
    match s.reg with
    | some (RegState.ready host port) =>
        { s with pcs := s.pcs.set i (CallerPC.done (LaunchRes.ok host port)) }
    | some (RegState.failed e) =>
        { s with pcs := s.pcs.set i (CallerPC.done (LaunchRes.err e)) }
    | _ => s
  | some (CallerPC.done _) => s

/-- Modelled from the spec: an interleaved execution — the scheduler picks
which caller acts at each point. -/
def run (o : Nat → LaunchRes) (s : Sys) (sched : List Nat) : Sys :=
  sched.foldl (step o) s

/-- Modelled from the spec: `n` concurrent StartTunnel callers with
identical request parameters for one identity that has no registry entry
yet (first-time requests, §3 invariants). -/
def mkInit (n : Nat) : Sys :=
  { pcs := List.replicate n CallerPC.atLookup, reg := none, launches := 0 }

/-- A caller that has returned. -/
def isDone : CallerPC → Bool
  | CallerPC.done _ => true
  | _ => false

/-- All callers have returned. -/
def allDone (s : Sys) : Bool := s.pcs.all isDone

/-- No caller is currently performing a launch. -/
def noLaunching (s : Sys) : Prop :=
  ∀ j, s.pcs.get? j ≠ some CallerPC.launching

/-- At most one caller is currently performing a launch. -/
def uniqLaunching (s : Sys) : Prop :=
  ∀ j k, s.pcs.get? j = some CallerPC.launching →
    s.pcs.get? k = some CallerPC.launching → j = k

/-- Registry/launcher invariant: while the entry is Starting at most one
caller is launching; with any other entry state no caller is launching. -/
def InvGen (s : Sys) : Prop :=
  (s.reg = some RegState.starting → uniqLaunching s) ∧
  (s.reg ≠ some RegState.starting → noLaunching s)

/-- A caller that has returned did so with the result `r` forced to the
successful launch outcome. -/
def doneOk (host : String) (port : Int) (pc : CallerPC) : Prop :=
  ∀ r, pc = CallerPC.done r → r = LaunchRes.ok host port

/-- Invariant of executions whose first (and then only) launch succeeds
with (host, port): the entry is absent with no launch performed and
everyone still at the lookup, or Starting with no launch performed, a
unique launching caller and nobody returned yet, or Ready with exactly one
launch performed, nobody launching and every returned caller holding the
same (host, port) snapshot. -/
def InvOk (host : String) (port : Int) (s : Sys) : Prop :=
  (s.reg = none ∧ s.launches = 0 ∧ ∀ pc ∈ s.pcs, pc = CallerPC.atLookup)
  ∨ (s.reg = some RegState.starting ∧ s.launches = 0 ∧ uniqLaunching s ∧
      ∀ pc ∈ s.pcs, isDone pc = false)
  ∨ (s.reg = some (RegState.ready host port) ∧ s.launches = 1 ∧
      noLaunching s ∧ ∀ pc ∈ s.pcs, doneOk host port pc)

end Tracker

/-! ### Spec-side request validity and schema validators (for C8) -/

/-- Follows the spec's words (§3, TunnelRequest constraints): remote port
and local port are positive 16-bit port numbers; target and remote host
are non-empty.  This is the spec-side predicate the adapter is compared
against; the adapter code declares no counterpart. -/
def specValidTunnelRequest (r : StartArgs) : Prop :=
  1 ≤ r.remotePort ∧ r.remotePort ≤ 65535 ∧
  1 ≤ r.localPort ∧ r.localPort ≤ 65535 ∧
  r.target ≠ "" ∧ r.remoteHost ≠ ""

instance (r : StartArgs) : Decidable (specValidTunnelRequest r) := by
  unfold specValidTunnelRequest
  infer_instance

/-- One attribute of a terraform-plugin-framework schema: the fields set
by the Go literals (MarkdownDescription omitted) plus the Validators
list, which none of the attribute literals sets (nil). -/
structure AttrSpec where
  name : String
  required : Bool
  optional : Bool
  computed : Bool
  validators : List String
deriving DecidableEq

/-- Embeds the attribute map of RemoteTunnelDataSource.Schema
(remote_tunnel_data_source.go lines 41-77): every attribute is declared
with Required/Optional/Computed flags only — no validators anywhere. -/
def RemoteTunnelDataSource.SchemaAttributes : List AttrSpec :=
  [ { name := "target", required := true, optional := false,
      computed := false, validators := [] },
    { name := "remote_host", required := true, optional := false,
      computed := false, validators := [] },
    { name := "remote_port", required := true, optional := false,
      computed := false, validators := [] },
    { name := "local_host", required := false, optional := false,
      computed := true, validators := [] },
    { name := "local_port", required := false, optional := true,
      computed := true, validators := [] },
    { name := "region", required := true, optional := false,
      computed := false, validators := [] },
    { name := "id", required := false, optional := false,
      computed := true, validators := [] } ]

/-! ### Concrete fixtures used by the witness theorems -/

/-- A concrete tunnel model (the §8 scenario values) with a configurable
local port. -/
def wData (lp : Int) : TunnelModel :=
  { target := "i-abc", remoteHost := "db.internal", remotePort := 5432,
    localPort := lp, localHost := "", region := "us-east-1", id := "t1" }

/-- A port-allocator oracle that finds port 18123. -/
def wFind : PortFinder := fun _ _ => Except.ok 18123

/-- A port-allocator oracle that finds no free port. -/
def wFindFail : PortFinder := fun _ _ => Except.error "no free port in range"

/-- A tracker oracle whose tunnel comes up on 127.0.0.1:18123. -/
def wStart : TunnelStarter :=
  fun _ => Except.ok { localPort := 18123, localHost := "127.0.0.1" }

/-- A concrete model for the ssm_remote_tunnel data source. -/
def wSSMData : SSMModel :=
  { target := "i-abc", remoteHost := "db.internal", remotePort := 5432,
    localPort := 16001, region := "us-east-1", id := "t1" }

/-- A concrete model violating the spec's TunnelRequest constraints: empty
target and remote port 0. -/
def wBadData : TunnelModel :=
  { target := "", remoteHost := "db.internal", remotePort := 0,
    localPort := 5, localHost := "", region := "us-east-1", id := "t1" }

namespace Tracker

theorem lt_length_of_get? {α : Type} {l : List α} {i : Nat} {a : α}
    (h : l.get? i = some a) : i < l.length := by
  induction l generalizing i with
  | nil => cases i <;> exact Option.noConfusion h
  | cons x xs ih =>
    cases i with
    | zero => exact Nat.succ_pos _
    | succ j => exact Nat.succ_lt_succ (ih h)

theorem set_get?_cases {α : Type} {l : List α} {i j : Nat} {old new b : α}
    (hi : l.get? i = some old) (hj : (l.set i new).get? j = some b) :
    (j = i ∧ b = new) ∨ (j ≠ i ∧ l.get? j = some b) := by
  by_cases hji : j = i
  · subst hji
    rw [List.get?_set_eq_of_lt new (lt_length_of_get? hi)] at hj
    exact Or.inl ⟨rfl, (Option.some.inj hj).symm⟩
  · rw [List.get?_set_ne new l (Ne.symm hji)] at hj
    exact Or.inr ⟨hji, hj⟩

theorem noLaunching_set {l : List CallerPC} {i : Nat} {old : CallerPC}
    (new : CallerPC) (hi : l.get? i = some old)
    (hnew : new ≠ CallerPC.launching)
    (honly : ∀ j, l.get? j = some CallerPC.launching → j = i) :
    ∀ j, (l.set i new).get? j ≠ some CallerPC.launching := by
  intro j hj
  rcases set_get?_cases hi hj with ⟨_, hb⟩ | ⟨hne, hl⟩
  · exact hnew hb.symm
  · exact hne (honly j hl)

theorem uniq_set_launching {l : List CallerPC} {i : Nat} {old : CallerPC}
    (hi : l.get? i = some old)
    (hno : ∀ j, l.get? j ≠ some CallerPC.launching) :
    ∀ j k, (l.set i CallerPC.launching).get? j = some CallerPC.launching →
      (l.set i CallerPC.launching).get? k = some CallerPC.launching →
      j = k := by
  intro j k hj hk
  rcases set_get?_cases hi hj with ⟨hji, _⟩ | ⟨_, hlj⟩
  · rcases set_get?_cases hi hk with ⟨hki, _⟩ | ⟨_, hlk⟩
    · rw [hji, hki]
    · exact absurd hlk (hno k)
  · exact absurd hlj (hno j)

theorem uniq_set_nonlaunching {l : List CallerPC} {i : Nat} {old : CallerPC}
    (new : CallerPC) (hi : l.get? i = some old)
    (hnew : new ≠ CallerPC.launching) (hu : uniqLaunching ⟨l, none, 0⟩) :
    ∀ j k, (l.set i new).get? j = some CallerPC.launching →
      (l.set i new).get? k = some CallerPC.launching → j = k := by
  intro j k hj hk
  rcases set_get?_cases hi hj with ⟨_, hb⟩ | ⟨_, hlj⟩
  · exact absurd hb.symm hnew
  · rcases set_get?_cases hi hk with ⟨_, hb⟩ | ⟨_, hlk⟩
    · exact absurd hb.symm hnew
    · exact hu j k hlj hlk

/-- The single-mutator invariant is preserved by every step. -/
theorem invGen_step (o : Nat → LaunchRes) (s : Sys) (i : Nat)
    (hs : InvGen s) : InvGen (step o s i) := by
  obtain ⟨hstarting, hother⟩ := hs
  unfold step
  cases hpc : s.pcs.get? i with
  | none => exact ⟨hstarting, hother⟩
  | some pc =>
    cases pc with
    | atLookup =>
      cases hreg : s.reg with
      | none =>
        have hno : noLaunching s := hother (by rw [hreg]; exact nofun)
        refine ⟨fun _ => ?_, fun hne => absurd rfl hne⟩
        exact uniq_set_launching hpc hno
      | some rs =>
        cases rs with
        | starting =>
          refine ⟨fun _ => ?_, fun hne => absurd rfl hne⟩
          exact uniq_set_nonlaunching CallerPC.waiting hpc nofun
            (fun j k hj hk => hstarting hreg j k hj hk)
        | ready host port =>
          have hno : noLaunching s := hother (by rw [hreg]; exact nofun)
          refine ⟨fun habs => absurd habs nofun, fun _ => ?_⟩
          exact noLaunching_set _ hpc nofun (fun j hj => (hno j hj).elim)
        | failed e =>
          have hno : noLaunching s := hother (by rw [hreg]; exact nofun)
          refine ⟨fun _ => ?_, fun hne => absurd rfl hne⟩
          exact uniq_set_launching hpc hno
    | launching =>
      have hreg : s.reg = some RegState.starting := by
        by_contra hne
        exact hother hne i hpc
      have hu := hstarting hreg
      cases ho : o s.launches with
      | ok host port =>
        refine ⟨fun habs => absurd habs nofun, fun _ => ?_⟩
        exact noLaunching_set _ hpc nofun (fun j hj => hu j i hj hpc)
      | err e =>
        refine ⟨fun habs => absurd habs nofun, fun _ => ?_⟩
        exact noLaunching_set _ hpc nofun (fun j hj => hu j i hj hpc)
    | waiting =>
      cases hreg : s.reg with
      | none => exact ⟨hstarting, hother⟩
      | some rs =>
        cases rs with
        | starting => exact ⟨hstarting, hother⟩
        | ready host port =>
          have hno : noLaunching s := hother (by rw [hreg]; exact nofun)
          refine ⟨fun habs => absurd habs nofun, fun _ => ?_⟩
          exact noLaunching_set _ hpc nofun (fun j hj => (hno j hj).elim)
        | failed e =>
          have hno : noLaunching s := hother (by rw [hreg]; exact nofun)
          refine ⟨fun habs => absurd habs nofun, fun _ => ?_⟩
          exact noLaunching_set _ hpc nofun (fun j hj => (hno j hj).elim)
    | done r => exact ⟨hstarting, hother⟩

theorem run_append (o : Nat → LaunchRes) (s : Sys) (l1 l2 : List Nat) :
    run o s (l1 ++ l2) = run o (run o s l1) l2 := by
  unfold run
  rw [List.foldl_append]

theorem invGen_run (o : Nat → LaunchRes) (s : Sys) (sched : List Nat)
    (hs : InvGen s) : InvGen (run o s sched) := by
  induction sched generalizing s with
  | nil => exact hs
  | cons i t ih => exact ih _ (invGen_step o s i hs)

theorem invGen_mkInit (n : Nat) : InvGen (mkInit n) := by
  refine ⟨fun habs => absurd habs nofun, fun _ j hj => ?_⟩
  have hm := List.get?_mem hj
  have := List.eq_of_mem_replicate hm
  exact CallerPC.noConfusion this

/-- While the invariant holds, a Ready entry can never change again and no
further launch can occur. -/
theorem step_ready (o : Nat → LaunchRes) (s : Sys) (i : Nat)
    (host : String) (port : Int) (hs : InvGen s)
    (hr : s.reg = some (RegState.ready host port)) :
    (step o s i).reg = some (RegState.ready host port) ∧
    (step o s i).launches = s.launches := by
  unfold step
  cases hpc : s.pcs.get? i with
  | none => exact ⟨hr, rfl⟩
  | some pc =>
    cases pc with
    | atLookup => rw [hr]; exact ⟨rfl, rfl⟩
    | launching =>
      exact absurd hpc (hs.2 (by rw [hr]; exact nofun) i)
    | waiting => rw [hr]; exact ⟨rfl, rfl⟩
    | done r => exact ⟨hr, rfl⟩

theorem run_ready (o : Nat → LaunchRes) (s : Sys) (sched : List Nat)
    (host : String) (port : Int) (hs : InvGen s)
    (hr : s.reg = some (RegState.ready host port)) :
    (run o s sched).reg = some (RegState.ready host port) ∧
    (run o s sched).launches = s.launches := by
  induction sched generalizing s with
  | nil => exact ⟨hr, rfl⟩
  | cons i t ih =>
    obtain ⟨hr', hl'⟩ := step_ready o s i host port hs hr
    obtain ⟨hr'', hl''⟩ := ih (step o s i) (invGen_step o s i hs) hr'
    exact ⟨hr'', hl''.trans hl'⟩

theorem step_length (o : Nat → LaunchRes) (s : Sys) (i : Nat) :
    (step o s i).pcs.length = s.pcs.length := by
  unfold step
  cases hpc : s.pcs.get? i with
  | none => rfl
  | some pc =>
    cases pc with
    | atLookup =>
      cases hreg : s.reg with
      | none => exact List.length_set ..
      | some rs => cases rs <;> exact List.length_set ..
    | launching => exact List.length_set ..
    | waiting =>
      cases hreg : s.reg with
      | none => rfl
      | some rs => cases rs <;> first | rfl | exact List.length_set ..
    | done r => rfl

theorem run_length (o : Nat → LaunchRes) (s : Sys) (sched : List Nat) :
    (run o s sched).pcs.length = s.pcs.length := by
  induction sched generalizing s with
  | nil => rfl
  | cons i t ih => exact (ih (step o s i)).trans (step_length o s i)

theorem invOk_step (o : Nat → LaunchRes) (host : String) (port : Int)
    (s : Sys) (i : Nat) (ho : o 0 = LaunchRes.ok host port)
    (hs : InvOk host port s) : InvOk host port (step o s i) := by
  unfold step
  cases hpc : s.pcs.get? i with
  | none => exact hs
  | some pc =>
    have hmem := List.get?_mem hpc
    rcases hs with ⟨hreg, hl0, hall⟩ | ⟨hreg, hl0, hu, hnd⟩ |
      ⟨hreg, hl1, hno, hok⟩
    · -- registry absent: every caller is at the lookup
      cases pc with
      | atLookup =>
        rw [hreg]
        refine Or.inr (Or.inl ⟨rfl, hl0, ?_, ?_⟩)
        · exact uniq_set_launching hpc
            (fun j hj => CallerPC.noConfusion (hall _ (List.get?_mem hj)))
        · intro pc' hm
          rcases List.mem_or_eq_of_mem_set hm with hm' | hm'
          · rw [hall pc' hm']; rfl
          · rw [hm']; rfl
      | launching => exact CallerPC.noConfusion (hall _ hmem)
      | waiting => exact CallerPC.noConfusion (hall _ hmem)
      | done r => exact CallerPC.noConfusion (hall _ hmem)
    · -- registry Starting, no launch yet
      cases pc with
      | atLookup =>
        rw [hreg]
        refine Or.inr (Or.inl ⟨rfl, hl0, ?_, ?_⟩)
        · exact uniq_set_nonlaunching CallerPC.waiting hpc nofun
            (fun j k hj hk => hu j k hj hk)
        · intro pc' hm
          rcases List.mem_or_eq_of_mem_set hm with hm' | hm'
          · exact hnd pc' hm'
          · rw [hm']; rfl
      | launching =>
        rw [hl0, ho]
        refine Or.inr (Or.inr ⟨rfl, rfl, ?_, ?_⟩)
        · exact noLaunching_set _ hpc nofun (fun j hj => hu j i hj hpc)
        · intro pc' hm
          rcases List.mem_or_eq_of_mem_set hm with hm' | hm'
          · intro r hr
            have := hnd pc' hm'
            rw [hr] at this
            exact absurd this (by simp [isDone])
          · intro r hr
            rw [hm'] at hr
            exact (CallerPC.done.inj hr).symm
      | waiting =>
        rw [hreg]
        exact Or.inr (Or.inl ⟨hreg, hl0, hu, hnd⟩)
      | done r =>
        have := hnd _ hmem
        exact absurd this (by simp [isDone])
    · -- registry Ready (host, port), exactly one launch performed
      cases pc with
      | atLookup =>
        rw [hreg]
        refine Or.inr (Or.inr ⟨rfl, hl1, ?_, ?_⟩)
        · exact noLaunching_set _ hpc nofun (fun j hj => (hno j hj).elim)
        · intro pc' hm
          rcases List.mem_or_eq_of_mem_set hm with hm' | hm'
          · exact hok pc' hm'
          · intro r hr
            rw [hm'] at hr
            exact (CallerPC.done.inj hr).symm
      | launching => exact absurd hpc (hno i)
      | waiting =>
        rw [hreg]
        refine Or.inr (Or.inr ⟨rfl, hl1, ?_, ?_⟩)
        · exact noLaunching_set _ hpc nofun (fun j hj => (hno j hj).elim)
        · intro pc' hm
          rcases List.mem_or_eq_of_mem_set hm with hm' | hm'
          · exact hok pc' hm'
          · intro r hr
            rw [hm'] at hr
            exact (CallerPC.done.inj hr).symm
      | done r => exact Or.inr (Or.inr ⟨hreg, hl1, hno, hok⟩)

theorem invOk_run (o : Nat → LaunchRes) (host : String) (port : Int)
    (s : Sys) (sched : List Nat) (ho : o 0 = LaunchRes.ok host port)
    (hs : InvOk host port s) : InvOk host port (run o s sched) := by
  induction sched generalizing s with
  | nil => exact hs
  | cons i t ih => exact ih _ (invOk_step o host port s i ho hs)

theorem invOk_mkInit (host : String) (port : Int) (n : Nat) :
    InvOk host port (mkInit n) :=
  Or.inl ⟨rfl, rfl, fun _ hm => List.eq_of_mem_replicate hm⟩

end Tracker

/-! ### Helper lemmas about the adapter operations -/

theorem tunnelOpAfterPort_calls (data : TunnelModel) (start : TunnelStarter)
    (fc : List (Int × Int)) (port : Int) (newId : Option String) :
    (tunnelOpAfterPort data start fc port newId).findCalls = fc ∧
    (tunnelOpAfterPort data start fc port newId).startCalls =
      [startArgsOf data port] := by
  unfold tunnelOpAfterPort
  cases start (startArgsOf data port) <;> exact ⟨rfl, rfl⟩

theorem tunnelOpAfterPort_state (data : TunnelModel) (start : TunnelStarter)
    (fc : List (Int × Int)) (port : Int) (newId : Option String)
    (m : TunnelModel)
    (hm : (tunnelOpAfterPort data start fc port newId).state = some m) :
    m.id = newId.getD data.id := by
  unfold tunnelOpAfterPort at hm
  cases hs : start (startArgsOf data port) with
  | error e => rw [hs] at hm; exact Option.noConfusion hm
  | ok info =>
    rw [hs] at hm
    have h2 := Option.some.inj hm
    rw [← h2]

theorem resolveThenStart_nonzero (data : TunnelModel) (find : PortFinder)
    (start : TunnelStarter) (newId : Option String)
    (h : data.localPort ≠ 0) :
    resolveThenStart data find start newId =
      tunnelOpAfterPort data start [] data.localPort newId := by
  unfold resolveThenStart
  rw [if_neg h]

theorem resolveThenStart_zero_ok (data : TunnelModel) (find : PortFinder)
    (start : TunnelStarter) (newId : Option String) (p : Int)
    (h : data.localPort = 0) (hf : find 16000 26000 = Except.ok p) :
    resolveThenStart data find start newId =
      tunnelOpAfterPort data start [(16000, 26000)] p newId := by
  unfold resolveThenStart
  rw [if_pos h, hf]

theorem resolveThenStart_zero_err (data : TunnelModel) (find : PortFinder)
    (start : TunnelStarter) (newId : Option String) (e : String)
    (h : data.localPort = 0) (hf : find 16000 26000 = Except.error e) :
    resolveThenStart data find start newId =
      { findCalls := [(16000, 26000)], startCalls := [],
        diags := [("Failed to find open port", "Error: " ++ e)],
        state := none } := by
  unfold resolveThenStart
  rw [if_pos h, hf]

theorem resolveThenStart_state (data : TunnelModel) (find : PortFinder)
    (start : TunnelStarter) (newId : Option String) (m : TunnelModel)
    (hm : (resolveThenStart data find start newId).state = some m) :
    m.id = newId.getD data.id := by
  by_cases h : data.localPort = 0
  · cases hf : find 16000 26000 with
    | error e =>
      rw [resolveThenStart_zero_err data find start newId e h hf] at hm
      exact Option.noConfusion hm
    | ok p =>
      rw [resolveThenStart_zero_ok data find start newId p h hf] at hm
      exact tunnelOpAfterPort_state data start _ p newId m hm
  · rw [resolveThenStart_nonzero data find start newId h] at hm
    exact tunnelOpAfterPort_state data start _ _ newId m hm

theorem goAtoi_of_not_numeric (s : String) (h : goNumeric s = false) :
    goAtoi s = (0, false) := by
  unfold goNumeric at h
  unfold goAtoi
  simp only []
  rw [h]
  simp

/-! ### Claim C1 -/

/-- Claim C1 (counterexample): in the tracker model two concurrent
StartTunnel callers with identical request parameters can cause two
session launches with different observed results.  Caller 0 inserts the
Starting entry and launches; the launch fails; caller 1 then runs its
lookup, finds the Failed entry, evicts it under the retry policy of §4.1
step 4 and launches again, successfully.  All callers complete, two
launches were performed, and the callers observe different outcomes,
refuting "exactly one launch and the same result for all callers" as
stated. -/
theorem concurrentFailureTwoLaunches :
    Tracker.allDone (Tracker.run
      (fun k => if k = 0 then Tracker.LaunchRes.err "launch failed"
                else Tracker.LaunchRes.ok "127.0.0.1" 16000)
      (Tracker.mkInit 2) [0, 0, 1, 1]) = true ∧
    (Tracker.run
      (fun k => if k = 0 then Tracker.LaunchRes.err "launch failed"
                else Tracker.LaunchRes.ok "127.0.0.1" 16000)
      (Tracker.mkInit 2) [0, 0, 1, 1]).launches = 2 ∧
    (Tracker.run
      (fun k => if k = 0 then Tracker.LaunchRes.err "launch failed"
                else Tracker.LaunchRes.ok "127.0.0.1" 16000)
      (Tracker.mkInit 2) [0, 0, 1, 1]).pcs =
      [Tracker.CallerPC.done (Tracker.LaunchRes.err "launch failed"),
       Tracker.CallerPC.done (Tracker.LaunchRes.ok "127.0.0.1" 16000)] := by
  decide

/-- Claim C1 (amended): for one identity with no prior registry entry,
whenever the first session launch succeeds, any interleaving of n ≥ 1
concurrent StartTunnel callers with identical request parameters that runs
until every caller has returned performs exactly one session launch, and
every caller observes the same resulting local host/port. -/
theorem singleLaunchOnSuccess (o : Nat → Tracker.LaunchRes) (host : String)
    (port : Int) (n : Nat) (sched : List Nat)
    (ho : o 0 = Tracker.LaunchRes.ok host port) (hn : 1 ≤ n)
    (hd : Tracker.allDone (Tracker.run o (Tracker.mkInit n) sched) = true) :
    (Tracker.run o (Tracker.mkInit n) sched).launches = 1 ∧
    ∀ pc ∈ (Tracker.run o (Tracker.mkInit n) sched).pcs,
      pc = Tracker.CallerPC.done (Tracker.LaunchRes.ok host port) := by
  have hinv := Tracker.invOk_run o host port (Tracker.mkInit n) sched ho
    (Tracker.invOk_mkInit host port n)
  have hlen : (Tracker.run o (Tracker.mkInit n) sched).pcs.length = n := by
    rw [Tracker.run_length]
    simp [Tracker.mkInit]
  have hdall := List.all_eq_true.mp hd
  have hne : (Tracker.run o (Tracker.mkInit n) sched).pcs ≠ [] := by
    intro h0
    rw [h0] at hlen
    simp at hlen
    omega
  obtain ⟨pc0, hpc0⟩ := List.exists_mem_of_ne_nil _ hne
  rcases hinv with ⟨_, _, hall⟩ | ⟨_, _, _, hnd⟩ | ⟨_, hl1, _, hok⟩
  · have h2 := hdall pc0 hpc0
    rw [hall pc0 hpc0] at h2
    exact absurd h2 (by simp [Tracker.isDone])
  · have h2 := hdall pc0 hpc0
    rw [hnd pc0 hpc0] at h2
    exact absurd h2 (by simp)
  · refine ⟨hl1, fun pc hm => ?_⟩
    have h2 := hdall pc hm
    cases pc with
    | atLookup => exact absurd h2 (by simp [Tracker.isDone])
    | launching => exact absurd h2 (by simp [Tracker.isDone])
    | waiting => exact absurd h2 (by simp [Tracker.isDone])
    | done r => rw [hok _ hm r rfl]

/-- Witness for the amended C1 at a concrete schedule: two callers, the
second caller's lookup finds Starting and waits, the only launch succeeds,
both return 127.0.0.1:18123. -/
theorem singleLaunchOnSuccess_witness :
    (Tracker.run (fun _ => Tracker.LaunchRes.ok "127.0.0.1" 18123)
      (Tracker.mkInit 2) [0, 1, 0, 1]).launches = 1 ∧
    ∀ pc ∈ (Tracker.run (fun _ => Tracker.LaunchRes.ok "127.0.0.1" 18123)
      (Tracker.mkInit 2) [0, 1, 0, 1]).pcs,
      pc = Tracker.CallerPC.done (Tracker.LaunchRes.ok "127.0.0.1" 18123) :=
  singleLaunchOnSuccess (fun _ => Tracker.LaunchRes.ok "127.0.0.1" 18123)
    "127.0.0.1" 18123 2 [0, 1, 0, 1] rfl (by decide) (by decide)

/-! ### Claim C2 -/

/-- Claim C2: once the registry entry is Ready with a given local
host/port, the entry never changes again, no further session launch ever
occurs, and any caller still at its lookup returns the recorded host/port
in one step of its own — the idempotent dedup path — so the local port
returned never changes for the lifetime of the entry. -/
theorem readyIdempotentStable (o : Nat → Tracker.LaunchRes) (n : Nat)
    (sched extra : List Nat) (host : String) (port : Int)
    (hr : (Tracker.run o (Tracker.mkInit n) sched).reg =
      some (Tracker.RegState.ready host port)) :
    ((Tracker.run o (Tracker.mkInit n) (sched ++ extra)).reg =
        some (Tracker.RegState.ready host port) ∧
      (Tracker.run o (Tracker.mkInit n) (sched ++ extra)).launches =
        (Tracker.run o (Tracker.mkInit n) sched).launches) ∧
    ∀ i, (Tracker.run o (Tracker.mkInit n) sched).pcs.get? i =
        some Tracker.CallerPC.atLookup →
      (Tracker.step o (Tracker.run o (Tracker.mkInit n) sched) i).pcs.get? i =
          some (Tracker.CallerPC.done (Tracker.LaunchRes.ok host port)) ∧
      (Tracker.step o (Tracker.run o (Tracker.mkInit n) sched) i).launches =
        (Tracker.run o (Tracker.mkInit n) sched).launches := by
  have hinv := Tracker.invGen_run o (Tracker.mkInit n) sched
    (Tracker.invGen_mkInit n)
  refine ⟨?_, ?_⟩
  · rw [Tracker.run_append]
    exact Tracker.run_ready o _ extra host port hinv hr
  · intro i hi
    constructor
    · unfold Tracker.step
      rw [hi, hr]
      exact List.get?_set_eq_of_lt _ (Tracker.lt_length_of_get? hi)
    · unfold Tracker.step
      rw [hi, hr]

/-- Witness for C2 at a concrete run: caller 0 starts the tunnel on
schedule [0, 0]; afterwards the entry stays Ready on 127.0.0.1:18123 with
no further launch, and caller 1's lookup returns it in one step. -/
theorem readyIdempotentStable_witness :
    (((Tracker.run (fun _ => Tracker.LaunchRes.ok "127.0.0.1" 18123)
          (Tracker.mkInit 2) ([0, 0] ++ [1, 1])).reg =
        some (Tracker.RegState.ready "127.0.0.1" 18123) ∧
      (Tracker.run (fun _ => Tracker.LaunchRes.ok "127.0.0.1" 18123)
          (Tracker.mkInit 2) ([0, 0] ++ [1, 1])).launches =
        (Tracker.run (fun _ => Tracker.LaunchRes.ok "127.0.0.1" 18123)
          (Tracker.mkInit 2) [0, 0]).launches) ∧
    ∀ i, (Tracker.run (fun _ => Tracker.LaunchRes.ok "127.0.0.1" 18123)
          (Tracker.mkInit 2) [0, 0]).pcs.get? i =
        some Tracker.CallerPC.atLookup →
      (Tracker.step (fun _ => Tracker.LaunchRes.ok "127.0.0.1" 18123)
          (Tracker.run (fun _ => Tracker.LaunchRes.ok "127.0.0.1" 18123)
            (Tracker.mkInit 2) [0, 0]) i).pcs.get? i =
          some (Tracker.CallerPC.done
            (Tracker.LaunchRes.ok "127.0.0.1" 18123)) ∧
      (Tracker.step (fun _ => Tracker.LaunchRes.ok "127.0.0.1" 18123)
          (Tracker.run (fun _ => Tracker.LaunchRes.ok "127.0.0.1" 18123)
            (Tracker.mkInit 2) [0, 0]) i).launches =
        (Tracker.run (fun _ => Tracker.LaunchRes.ok "127.0.0.1" 18123)
          (Tracker.mkInit 2) [0, 0]).launches) :=
  readyIdempotentStable (fun _ => Tracker.LaunchRes.ok "127.0.0.1" 18123) 2
    [0, 0] [1, 1] "127.0.0.1" 18123 (by decide)

/-! ### Claim C3 -/

/-- Claim C3: in every start-request adapter operation (the remote_tunnel
data source Read and the resource Create/Read/Update), a nonzero
configured local port is passed to StartTunnel unchanged with no
FindOpenPort call, while a zero local port causes exactly one call
FindOpenPort(16000, 26000), whose returned port is the one passed to
StartTunnel. -/
theorem portResolutionExact (data : TunnelModel) (find : PortFinder)
    (start : TunnelStarter) (u : String) :
    (data.localPort ≠ 0 →
      ((RemoteTunnelDataSource.Read data find start).findCalls = [] ∧
        (RemoteTunnelDataSource.Read data find start).startCalls =
          [startArgsOf data data.localPort]) ∧
      ((RemoteTunnelResource.Create data find start u).findCalls = [] ∧
        (RemoteTunnelResource.Create data find start u).startCalls =
          [startArgsOf data data.localPort]) ∧
      ((RemoteTunnelResource.Read data find start u).findCalls = [] ∧
        (RemoteTunnelResource.Read data find start u).startCalls =
          [startArgsOf data data.localPort]) ∧
      ((RemoteTunnelResource.Update data find start u).findCalls = [] ∧
        (RemoteTunnelResource.Update data find start u).startCalls =
          [startArgsOf data data.localPort])) ∧
    (data.localPort = 0 →
      ∀ p, find 16000 26000 = Except.ok p →
        ((RemoteTunnelDataSource.Read data find start).findCalls =
            [(16000, 26000)] ∧
          (RemoteTunnelDataSource.Read data find start).startCalls =
            [startArgsOf data p]) ∧
        ((RemoteTunnelResource.Create data find start u).findCalls =
            [(16000, 26000)] ∧
          (RemoteTunnelResource.Create data find start u).startCalls =
            [startArgsOf data p]) ∧
        ((RemoteTunnelResource.Read data find start u).findCalls =
            [(16000, 26000)] ∧
          (RemoteTunnelResource.Read data find start u).startCalls =
            [startArgsOf data p]) ∧
        ((RemoteTunnelResource.Update data find start u).findCalls =
            [(16000, 26000)] ∧
          (RemoteTunnelResource.Update data find start u).startCalls =
            [startArgsOf data p])) := by
  constructor
  · intro h
    have pnone : (resolveThenStart data find start none).findCalls = [] ∧
        (resolveThenStart data find start none).startCalls =
          [startArgsOf data data.localPort] := by
      rw [resolveThenStart_nonzero data find start none h]
      exact tunnelOpAfterPort_calls data start [] data.localPort none
    have psome : (resolveThenStart data find start (some u)).findCalls = [] ∧
        (resolveThenStart data find start (some u)).startCalls =
          [startArgsOf data data.localPort] := by
      rw [resolveThenStart_nonzero data find start (some u) h]
      exact tunnelOpAfterPort_calls data start [] data.localPort (some u)
    exact ⟨pnone, psome, psome, psome⟩
  · intro h p hf
    have pnone : (resolveThenStart data find start none).findCalls =
        [(16000, 26000)] ∧
        (resolveThenStart data find start none).startCalls =
          [startArgsOf data p] := by
      rw [resolveThenStart_zero_ok data find start none p h hf]
      exact tunnelOpAfterPort_calls data start [(16000, 26000)] p none
    have psome : (resolveThenStart data find start (some u)).findCalls =
        [(16000, 26000)] ∧
        (resolveThenStart data find start (some u)).startCalls =
          [startArgsOf data p] := by
      rw [resolveThenStart_zero_ok data find start (some u) p h hf]
      exact tunnelOpAfterPort_calls data start [(16000, 26000)] p (some u)
    exact ⟨pnone, psome, psome, psome⟩

/-- Witness for C3: with local port 16534 the data source Read passes
16534 through with no allocator call; with local port 0 the resource
Create calls FindOpenPort(16000, 26000) and passes the allocated 18123. -/
theorem portResolutionExact_witness :
    ((RemoteTunnelDataSource.Read (wData 16534) wFind wStart).findCalls =
        [] ∧
      (RemoteTunnelDataSource.Read (wData 16534) wFind wStart).startCalls =
        [startArgsOf (wData 16534) 16534]) ∧
    ((RemoteTunnelResource.Create (wData 0) wFind wStart "u1").findCalls =
        [(16000, 26000)] ∧
      (RemoteTunnelResource.Create (wData 0) wFind wStart "u1").startCalls =
        [startArgsOf (wData 0) 18123]) :=
  ⟨((portResolutionExact (wData 16534) wFind wStart "u1").1 (by decide)).1,
   ((portResolutionExact (wData 0) wFind wStart "u1").2 (by decide) 18123
      rfl).2.1⟩

/-! ### Claim C4 -/

/-- Claim C4: in every start-request adapter operation, when the
configured local port is 0 and FindOpenPort fails, the operation reports
the allocator's error and returns: StartTunnel is never invoked and no
state is persisted. -/
theorem allocFailureNoLaunch (data : TunnelModel) (find : PortFinder)
    (start : TunnelStarter) (u : String) (e : String)
    (h0 : data.localPort = 0) (hf : find 16000 26000 = Except.error e) :
    ((RemoteTunnelDataSource.Read data find start).startCalls = [] ∧
      (RemoteTunnelDataSource.Read data find start).diags =
        [("Failed to find open port", "Error: " ++ e)] ∧
      (RemoteTunnelDataSource.Read data find start).state = none) ∧
    ((RemoteTunnelResource.Create data find start u).startCalls = [] ∧
      (RemoteTunnelResource.Create data find start u).diags =
        [("Failed to find open port", "Error: " ++ e)] ∧
      (RemoteTunnelResource.Create data find start u).state = none) ∧
    ((RemoteTunnelResource.Read data find start u).startCalls = [] ∧
      (RemoteTunnelResource.Read data find start u).diags =
        [("Failed to find open port", "Error: " ++ e)] ∧
      (RemoteTunnelResource.Read data find start u).state = none) ∧
    ((RemoteTunnelResource.Update data find start u).startCalls = [] ∧
      (RemoteTunnelResource.Update data find start u).diags =
        [("Failed to find open port", "Error: " ++ e)] ∧
      (RemoteTunnelResource.Update data find start u).state = none) := by
  have pnone : (resolveThenStart data find start none).startCalls = [] ∧
      (resolveThenStart data find start none).diags =
        [("Failed to find open port", "Error: " ++ e)] ∧
      (resolveThenStart data find start none).state = none := by
    rw [resolveThenStart_zero_err data find start none e h0 hf]
    exact ⟨rfl, rfl, rfl⟩
  have psome : (resolveThenStart data find start (some u)).startCalls = [] ∧
      (resolveThenStart data find start (some u)).diags =
        [("Failed to find open port", "Error: " ++ e)] ∧
      (resolveThenStart data find start (some u)).state = none := by
    rw [resolveThenStart_zero_err data find start (some u) e h0 hf]
    exact ⟨rfl, rfl, rfl⟩
  exact ⟨pnone, psome, psome, psome⟩

/-- Witness for C4: with local port 0 and an exhausted allocator, the data
source Read and the resource Create report the allocator error, make no
StartTunnel call and set no state. -/
theorem allocFailureNoLaunch_witness :
    ((RemoteTunnelDataSource.Read (wData 0) wFindFail wStart).startCalls =
        [] ∧
      (RemoteTunnelDataSource.Read (wData 0) wFindFail wStart).diags =
        [("Failed to find open port",
          "Error: " ++ "no free port in range")] ∧
      (RemoteTunnelDataSource.Read (wData 0) wFindFail wStart).state =
        none) ∧
    ((RemoteTunnelResource.Create (wData 0) wFindFail wStart
        "u1").startCalls = [] ∧
      (RemoteTunnelResource.Create (wData 0) wFindFail wStart "u1").diags =
        [("Failed to find open port",
          "Error: " ++ "no free port in range")] ∧
      (RemoteTunnelResource.Create (wData 0) wFindFail wStart "u1").state =
        none) :=
  ⟨(allocFailureNoLaunch (wData 0) wFindFail wStart "u1"
      "no free port in range" (by decide) rfl).1,
   (allocFailureNoLaunch (wData 0) wFindFail wStart "u1"
      "no free port in range" (by decide) rfl).2.1⟩

/-! ### Claim C5 -/

/-- Claim C5: on every successful Create, Read and Update of the
remote_tunnel resource, the identity persisted to state is the freshly
generated random uuid `u`, not the identity previously held in state or
configuration: whenever state is persisted its id equals `u`, and so
differs from the prior id whenever the fresh uuid does — the persisted
identity changes on every such call. -/
theorem persistedIdFreshUuid (data : TunnelModel) (find : PortFinder)
    (start : TunnelStarter) (u : String) :
    (∀ m, (RemoteTunnelResource.Create data find start u).state = some m →
      m.id = u ∧ (u ≠ data.id → m.id ≠ data.id)) ∧
    (∀ m, (RemoteTunnelResource.Read data find start u).state = some m →
      m.id = u ∧ (u ≠ data.id → m.id ≠ data.id)) ∧
    (∀ m, (RemoteTunnelResource.Update data find start u).state = some m →
      m.id = u ∧ (u ≠ data.id → m.id ≠ data.id)) := by
  have key : ∀ m,
      (resolveThenStart data find start (some u)).state = some m →
      m.id = u ∧ (u ≠ data.id → m.id ≠ data.id) := by
    intro m hm
    have hid := resolveThenStart_state data find start (some u) m hm
    refine ⟨hid, fun hne => ?_⟩
    rw [hid]
    exact hne
  exact ⟨key, key, key⟩

/-- Witness for C5: a successful Create with prior id "t1" persists the
fresh uuid "3f8e0a-fresh" as the id, which differs from "t1". -/
theorem persistedIdFreshUuid_witness :
    ({ target := "i-abc", remoteHost := "db.internal", remotePort := 5432,
       localPort := 18123, localHost := "127.0.0.1", region := "us-east-1",
       id := "3f8e0a-fresh" } : TunnelModel).id = "3f8e0a-fresh" ∧
    ("3f8e0a-fresh" ≠ (wData 3).id →
      ({ target := "i-abc", remoteHost := "db.internal", remotePort := 5432,
         localPort := 18123, localHost := "127.0.0.1",
         region := "us-east-1",
         id := "3f8e0a-fresh" } : TunnelModel).id ≠ (wData 3).id) :=
  (persistedIdFreshUuid (wData 3) wFind wStart "3f8e0a-fresh").1
    { target := "i-abc", remoteHost := "db.internal", remotePort := 5432,
      localPort := 18123, localHost := "127.0.0.1", region := "us-east-1",
      id := "3f8e0a-fresh" } (by decide)

/-! ### Claim C6 -/

/-- Claim C6: ImportState accepts an import id exactly when splitting it
on "|" yields six fields; any other field count is rejected with the
format error and nothing is persisted (ImportState makes no tracker call
at all); with six fields they are assigned in order to target, remote
host, remote port, local port, local host and region. -/
theorem importStateSixFields (reqID u : String) :
    ((RemoteTunnelResource.ImportState reqID u).state.isSome ↔
      (goSplitPipe reqID).length = 6) ∧
    ((goSplitPipe reqID).length ≠ 6 →
      (RemoteTunnelResource.ImportState reqID u).state = none ∧
      (RemoteTunnelResource.ImportState reqID u).diags =
        [("Invalid import ID",
          "Import ID must be in the format `target|remote_host|remote_port|local_port|local_host|region`")]) ∧
    (∀ a b c d e f, goSplitPipe reqID = [a, b, c, d, e, f] →
      (RemoteTunnelResource.ImportState reqID u).state = some
        { id := u, target := a, remoteHost := b,
          remotePort := (goAtoi c).1, localPort := (goAtoi d).1,
          localHost := e, region := f } ∧
      (RemoteTunnelResource.ImportState reqID u).diags = []) := by
  refine ⟨?_, ?_, ?_⟩
  · unfold RemoteTunnelResource.ImportState
    rcases hl : goSplitPipe reqID with
      _ | ⟨a0, _ | ⟨b0, _ | ⟨c0, _ | ⟨d0, _ | ⟨e0, _ | ⟨f0,
        _ | ⟨g0, rest⟩⟩⟩⟩⟩⟩⟩ <;>
      simp
  · intro hne
    unfold RemoteTunnelResource.ImportState
    rcases hl : goSplitPipe reqID with
      _ | ⟨a0, _ | ⟨b0, _ | ⟨c0, _ | ⟨d0, _ | ⟨e0, _ | ⟨f0,
        _ | ⟨g0, rest⟩⟩⟩⟩⟩⟩⟩ <;>
      first
        | exact ⟨rfl, rfl⟩
        | exact absurd (by rw [hl]; rfl) hne
  · intro a b c d e f hsp
    unfold RemoteTunnelResource.ImportState
    rw [hsp]
    exact ⟨rfl, rfl⟩

/-- Witness for C6: a six-field key is accepted and its fields land in
order on target, remote host, remote port, local port, local host and
region. -/
theorem importStateSixFields_witness :
    (RemoteTunnelResource.ImportState
        "i-abc|db.internal|5432|16534|127.0.0.1|us-east-1" "u1").state =
      some
        { id := "u1", target := "i-abc", remoteHost := "db.internal",
          remotePort := (goAtoi "5432").1, localPort := (goAtoi "16534").1,
          localHost := "127.0.0.1", region := "us-east-1" } ∧
    (RemoteTunnelResource.ImportState
        "i-abc|db.internal|5432|16534|127.0.0.1|us-east-1" "u1").diags =
      [] :=
  (importStateSixFields "i-abc|db.internal|5432|16534|127.0.0.1|us-east-1"
      "u1").2.2 "i-abc" "db.internal" "5432" "16534" "127.0.0.1"
    "us-east-1" (by decide)

/-! ### Claim C7 -/

/-- Claim C7: Delete never invokes StopTunnel or any other teardown: its
trace contains no allocator call, no StartTunnel call and no StopTunnel
call, so applying its (empty) stop calls to any tracker registry leaves
the registry unchanged — Delete only reads the prior state and
returns. -/
theorem deleteNoTeardown (data : TunnelModel) :
    RemoteTunnelResource.Delete data =
      { findCalls := [], startCalls := [], stopCalls := [] } ∧
    ∀ reg : List (String × Tracker.RegState),
      applyStops reg (RemoteTunnelResource.Delete data).stopCalls = reg :=
  ⟨rfl, fun _ => rfl⟩

/-! ### Claim C8 -/

/-- Claim C8 (counterexample): a request with empty target and remote port
0 — violating the spec's TunnelRequest constraints — is handed to
StartTunnel by the data source Read instead of being rejected before
reaching the tracker. -/
theorem invalidRequestReachesTracker :
    (RemoteTunnelDataSource.Read wBadData wFindFail wStart).startCalls =
      [{ id := "t1", target := "", remoteHost := "db.internal",
         remotePort := 0, localPort := 5, region := "us-east-1" }] ∧
    ¬ specValidTunnelRequest
      { id := "t1", target := "", remoteHost := "db.internal",
        remotePort := 0, localPort := 5, region := "us-east-1" } := by
  constructor
  · decide
  · decide

/-- Claim C8 (amended): the adapter performs no validation of the
TunnelRequest constraints: the schema declares attributes with only
Required/Optional/Computed flags and no validators, and a request
violating the constraints is passed to StartTunnel unchanged (with a
nonzero configured local port) rather than rejected before reaching the
tracker. -/
theorem noRequestValidation (data : TunnelModel) (find : PortFinder)
    (start : TunnelStarter) (hnz : data.localPort ≠ 0)
    (_hinv : ¬ specValidTunnelRequest (startArgsOf data data.localPort)) :
    (∀ attr ∈ RemoteTunnelDataSource.SchemaAttributes,
      attr.validators = []) ∧
    (RemoteTunnelDataSource.Read data find start).startCalls =
      [startArgsOf data data.localPort] := by
  refine ⟨by decide, ?_⟩
  show (resolveThenStart data find start none).startCalls = _
  rw [resolveThenStart_nonzero data find start none hnz]
  exact (tunnelOpAfterPort_calls data start [] data.localPort none).2

/-- Witness for the amended C8: the invalid request of the counterexample
reaches StartTunnel unchanged and the schema declares no validators. -/
theorem noRequestValidation_witness :
    (∀ attr ∈ RemoteTunnelDataSource.SchemaAttributes,
      attr.validators = []) ∧
    (RemoteTunnelDataSource.Read wBadData wFindFail wStart).startCalls =
      [startArgsOf wBadData (wBadData.localPort)] :=
  noRequestValidation wBadData wFindFail wStart (by decide) (by decide)

/-! ### Claim C9 -/

/-- Claim C9: the ssm_remote_tunnel data source Read does not return early
when StartTunnel reports an error — the diagnostic is recorded and
execution continues: it looks the identity up in the tracker's Tunnels
map, reporting "Tunnel not found" (without setting state) when absent, and
otherwise blocks until the ReadySignal fires (state is then set, even
after a StartTunnel error) or the context ends (a cancellation diagnostic
is added and state is not set). -/
theorem ssmReadContinuesAfterError (data : SSMModel)
    (start : StartArgs → Option String) (tunnels : List String)
    (sel : SelectBranch) :
    (SSMRemoteTunnelDataSource.Read data start tunnels sel).startCalls =
      [ssmStartArgs data] ∧
    (∀ e, start (ssmStartArgs data) = some e →
      ("Failed to start remote tunnel", "Error: " ++ e) ∈
        (SSMRemoteTunnelDataSource.Read data start tunnels sel).diags) ∧
    (data.id ∉ tunnels →
      (SSMRemoteTunnelDataSource.Read data start tunnels sel).stateSet =
        false ∧
      ("Tunnel not found",
        "The requested tunnel does not exist in the tracker.") ∈
        (SSMRemoteTunnelDataSource.Read data start tunnels sel).diags) ∧
    (data.id ∈ tunnels → sel = SelectBranch.readySignal →
      (SSMRemoteTunnelDataSource.Read data start tunnels sel).stateSet =
        true) ∧
    (data.id ∈ tunnels → sel = SelectBranch.ctxDone →
      (SSMRemoteTunnelDataSource.Read data start tunnels sel).stateSet =
        false ∧
      ("Context cancelled or timed out",
        "The operation was cancelled or timed out before the tunnel became ready.") ∈
        (SSMRemoteTunnelDataSource.Read data start tunnels sel).diags) := by
  unfold SSMRemoteTunnelDataSource.Read
  cases hs : start (ssmStartArgs data) <;>
    by_cases ht : data.id ∈ tunnels <;>
      cases sel <;>
        simp [hs, ht]

/-- Witness for C9: with a failing StartTunnel, an identity present in the
tracker and a firing ReadySignal, state is still set and the start error
diagnostic is present. -/
theorem ssmReadContinuesAfterError_witness :
    (SSMRemoteTunnelDataSource.Read wSSMData (fun _ => some "boom") ["t1"]
        SelectBranch.readySignal).stateSet = true ∧
    ("Failed to start remote tunnel", "Error: " ++ "boom") ∈
      (SSMRemoteTunnelDataSource.Read wSSMData (fun _ => some "boom")
        ["t1"] SelectBranch.readySignal).diags :=
  ⟨(ssmReadContinuesAfterError wSSMData (fun _ => some "boom") ["t1"]
      SelectBranch.readySignal).2.2.2.1 (by decide) rfl,
   (ssmReadContinuesAfterError wSSMData (fun _ => some "boom") ["t1"]
      SelectBranch.readySignal).2.1 "boom" rfl⟩

/-! ### Claim C10 -/

/-- Claim C10: ImportState does not validate that the port fields of a
six-field import id are numeric: the strconv.Atoi errors are discarded,
so a six-field key with non-numeric port fields is accepted without any
diagnostic and persisted with remote port 0 and local port 0. -/
theorem importStateNonnumericPortsZero (reqID u a b c d e f : String)
    (hsp : goSplitPipe reqID = [a, b, c, d, e, f])
    (hc : goNumeric c = false) (hd : goNumeric d = false) :
    (RemoteTunnelResource.ImportState reqID u).diags = [] ∧
    (RemoteTunnelResource.ImportState reqID u).state = some
      { id := u, target := a, remoteHost := b, remotePort := 0,
        localPort := 0, localHost := e, region := f } := by
  unfold RemoteTunnelResource.ImportState
  rw [hsp]
  refine ⟨rfl, ?_⟩
  show some
      ({ id := u, target := a, remoteHost := b,
         remotePort := (goAtoi c).1, localPort := (goAtoi d).1,
         localHost := e, region := f } : TunnelModel) =
    some
      ({ id := u, target := a, remoteHost := b, remotePort := 0,
         localPort := 0, localHost := e, region := f } : TunnelModel)
  rw [goAtoi_of_not_numeric c hc, goAtoi_of_not_numeric d hd]

/-- Witness for C10: the six-field key with non-numeric port fields
"port" and "auto" is accepted and persisted with both ports 0. -/
theorem importStateNonnumericPortsZero_witness :
    (RemoteTunnelResource.ImportState
        "i-abc|db.internal|port|auto|localhost|us-east-1" "u1").diags =
      [] ∧
    (RemoteTunnelResource.ImportState
        "i-abc|db.internal|port|auto|localhost|us-east-1" "u1").state =
      some
        { id := "u1", target := "i-abc", remoteHost := "db.internal",
          remotePort := 0, localPort := 0, localHost := "localhost",
          region := "us-east-1" } :=
  importStateNonnumericPortsZero
    "i-abc|db.internal|port|auto|localhost|us-east-1" "u1" "i-abc"
    "db.internal" "port" "auto" "localhost" "us-east-1" (by decide)
    (by decide) (by decide)

end SSMTunnels
